import Mathlib

/-!
Verification of the PingCy monitoring pipeline (scheduler, checker,
aggregator, incident tracker) against its natural-language specification.

The Go sources are shallowly embedded: pure logic becomes Lean functions,
per-goroutine loops become folds over the lists of inputs they would
receive, channels become explicit lists, the SQL store becomes a list of
rows, and `time.Duration` (an `int64` of nanoseconds) becomes `Int`.
Wall-clock reads (`time.Now()`) and the random jitter draw
(`rand.Int63n`) are passed in as explicit parameters.
-/

namespace PingCy

/-- Embeds `monitor.Target` (internal/monitor/types.go).  Durations are
nanosecond counts (`time.Duration` is an `int64` of nanoseconds). -/
structure Target where
  Name : String
  URL : String
  Method : String
  Interval : Int
  Timeout : Int
  ExpectedStatus : Nat
  Contains : String
  MaxBodyBytes : Int
  Enabled : Bool
  Tags : List String
deriving DecidableEq, Inhabited

/-- Embeds `monitor.CheckJob` (internal/monitor/types.go). -/
structure CheckJob where
  Target : Target
  ScheduledAt : Nat
  Attempt : Nat
deriving DecidableEq, Inhabited

/-- Embeds `monitor.CheckResult` (internal/monitor/types.go).  `At` is a
wall-clock timestamp (opaque tick count), `Latency` a duration. -/
structure CheckResult where
  TargetName : String
  URL : String
  At : Nat
  Latency : Int
  Up : Bool
  StatusCode : Nat
  Error : String
  Validation : String
  Attempt : Nat
deriving DecidableEq, Inhabited

/-- Embeds `monitor.State` (internal/monitor/types.go); the unused
`History` slice is omitted. -/
structure State where
  Name : String
  URL : String
  LastUp : Bool
  LastChecked : Nat
  LastLatency : Int
  LastStatusCode : Nat
  LastError : String
  ConsecutiveSuccess : Nat
  ConsecutiveFail : Nat
  TotalChecks : Nat
  TotalFails : Nat
deriving DecidableEq, Inhabited

/-- Embeds `monitor.Event` in its most capable form, as constructed by the
backend `Aggregator` and consumed by the jittered-scheduler variant's
`IncidentCollector` (fields `TargetName, URL, From, To, At, Reason,
StatusCode` read off those uses). -/
structure Event where
  TargetName : String
  URL : String
  From : Bool
  To : Bool
  At : Nat
  Reason : String
  StatusCode : Nat
deriving DecidableEq, Inhabited

/-- A Go `error` value as seen by `classifyHTTPError`: whether it is the
`context.DeadlineExceeded` / `context.Canceled` sentinel, plus the text
returned by `err.Error()`. -/
structure GoError where
  isDeadlineSentinel : Bool
  isCanceledSentinel : Bool
  msg : String
deriving DecidableEq, Inhabited

/-- An HTTP response as consumed by `CheckOnce`: status code, the full
body stream content (bytes modelled as characters), and whether reading
the (length-limited) body fails. -/
structure HttpResponse where
  StatusCode : Nat
  Body : String
  ReadErr : Option String
deriving DecidableEq, Inhabited

/-- The three ways `CheckOnce`'s HTTP interaction can go: request
construction fails, `client.Do` fails, or a response arrives. -/
inductive HttpOutcome where
  | buildError (msg : String)
  | transportError (e : GoError)
  | ok (resp : HttpResponse)
deriving DecidableEq, Inhabited

/-- Go `strings.Contains s sub`: `sub` occurs as a substring of `s`. -/
def goContains (s sub : String) : Bool :=
  decide (sub.data <:+: s.data)

/-- Drop whitespace from both ends of a character list. -/
def trimChars (l : List Char) : List Char :=
  ((l.dropWhile Char.isWhitespace).reverse.dropWhile Char.isWhitespace).reverse

/-- Go `strings.TrimSpace`. -/
def goTrimSpace (s : String) : String :=
  (trimChars s.data).asString

/-- Go `strings.ToUpper` (for the ASCII method names used here). -/
def goToUpper (s : String) : String :=
  (s.data.map Char.toUpper).asString

/-- Embeds `errorsIsContextDeadline` (httpcheck.go): sentinel equality or
the text containment check. -/
def errorsIsContextDeadline (e : GoError) : Bool :=
  e.isDeadlineSentinel || goContains e.msg "context deadline exceeded"

/-- Embeds `errorsIsContextCanceled` (httpcheck.go). -/
def errorsIsContextCanceled (e : GoError) : Bool :=
  e.isCanceledSentinel || goContains e.msg "context canceled"

/-- Embeds `classifyHTTPError` (httpcheck.go). -/
def classifyHTTPError (e : GoError) : String :=
  if errorsIsContextDeadline e then "timeout"
  else if errorsIsContextCanceled e then "canceled"
  else e.msg

/-- Go `%q` formatting of a string, for the printable characters used
here: the string wrapped in double quotes with `"` and `\` escaped. -/
def goQuoteChar (c : Char) : String :=
  if c = '"' then "\\\""
  else if c = '\\' then "\\\\"
  else String.singleton c

/-- Go `fmt.Sprintf "%q" s` for strings of printable characters. -/
def goQuote (s : String) : String :=
  "\"" ++ String.join (s.data.map goQuoteChar) ++ "\""

/-- The effective body-read limit of `CheckOnce` (httpcheck.go lines
76-79): `t.MaxBodyBytes`, defaulting to 64 KB when not positive. -/
def effMaxBytes (t : Target) : Int :=
  if t.MaxBodyBytes ≤ 0 then 64 * 1024 else t.MaxBodyBytes

/-- The portion of the body `CheckOnce` actually reads:
`io.ReadAll (io.LimitReader body maxBytes)`. -/
def bodyRead (t : Target) (body : String) : String :=
  (body.data.take (effMaxBytes t).toNat).asString

/-- Embeds `CheckOnce` (httpcheck.go).  The wall-clock observation time
`atTime` and the measured latency `lat` are environment-supplied; the
HTTP interaction's result is the explicit `outcome` argument. -/
def CheckOnce (atTime : Nat) (lat : Int) (t : Target) (outcome : HttpOutcome) : CheckResult :=
  let res : CheckResult :=
    { TargetName := t.Name, URL := t.URL, At := atTime, Latency := 0,
      Up := false, StatusCode := 0, Error := "", Validation := "", Attempt := 1 }
  match outcome with
  | .buildError msg =>
      { res with Up := false, Error := "build request: " ++ msg, Latency := lat }
  | .transportError e =>
      { res with Up := false, Error := classifyHTTPError e, Latency := lat }
  | .ok resp =>
      let res := { res with StatusCode := resp.StatusCode, Latency := lat }
      if t.ExpectedStatus ≠ 0 ∧ resp.StatusCode ≠ t.ExpectedStatus then
        let got := resp.StatusCode
        let want := t.ExpectedStatus
        { res with Up := false, Validation := s!"unexpected status: got {got} want {want}" }
      else if t.ExpectedStatus = 0 ∧ (resp.StatusCode < 200 ∨ 400 ≤ resp.StatusCode) then
        let got := resp.StatusCode
        { res with Up := false, Validation := s!"bad status: {got}" }
      else
        let contains := goTrimSpace t.Contains
        if contains ≠ "" then
          if goToUpper t.Method = "HEAD" then
            { res with
              Up := false,
              Validation := "contains check configured but method is HEAD (no body)" }
          else
            match resp.ReadErr with
            | some rerr => { res with Up := false, Error := "read body: " ++ rerr }
            | none =>
                if goContains (bodyRead t resp.Body) contains then
                  { res with Up := true, Error := "", Validation := "" }
                else
                  { res with Up := false, Validation := "keyword missing: " ++ goQuote contains }
        else
          { res with Up := true, Error := "", Validation := "" }

/-- Embeds `updateState` (backend aggregator). -/
def updateState (now : Nat) (state : State) (res : CheckResult) : State :=
  let st := { state with
    LastChecked := now, LastUp := res.Up, Name := res.TargetName,
    LastLatency := res.Latency, LastStatusCode := res.StatusCode,
    URL := res.URL, TotalChecks := state.TotalChecks + 1 }
  if res.Up then
    { st with ConsecutiveSuccess := st.ConsecutiveSuccess + 1, ConsecutiveFail := 0 }
  else
    { st with
      TotalFails := st.TotalFails + 1, ConsecutiveFail := st.ConsecutiveFail + 1,
      LastError := res.Error }

/-- The zero `monitor.State` value. -/
def State0 : State :=
  { Name := "", URL := "", LastUp := false, LastChecked := 0, LastLatency := 0,
    LastStatusCode := 0, LastError := "", ConsecutiveSuccess := 0, ConsecutiveFail := 0,
    TotalChecks := 0, TotalFails := 0 }

/-- The state lazily created by the Aggregator on the first result for a
target when no persisted history is available:
`&State{Name: res.TargetName, URL: res.URL}`. -/
def freshState (res : CheckResult) : State :=
  { State0 with Name := res.TargetName, URL := res.URL }

/-- The Aggregator's `state` map (keyed by target name); lookups take the
first matching entry, updates prepend. -/
def StateMap := List (String × State)

/-- One iteration of the backend `Aggregator` loop (config.go lines
240-297) for one received result, with the persistence pool absent
(`db = nil`, so hydration falls back to the fresh state): locate or
create the target's state, record the previous up-value, update, and
emit a transition event when `TotalChecks > 1` and the up-value flipped.
Returns the updated state map and the optional emitted event. -/
def aggStep (m : StateMap) (now : Nat) (res : CheckResult) : StateMap × Option Event :=
  let st := (List.lookup res.TargetName m).getD (freshState res)
  let prevUp := st.LastUp
  let st2 := updateState now st res
  let ev : Option Event :=
    if 1 < st2.TotalChecks ∧ prevUp ≠ res.Up then
      some { TargetName := res.TargetName, URL := res.URL, From := prevUp, To := res.Up,
             At := res.At, Reason := res.Error, StatusCode := res.StatusCode }
    else none
  ((res.TargetName, st2) :: m, ev)

/-- The Aggregator loop run over a finite list of `(now, result)` inputs
(the wall-clock value passed to `updateState` paired with the result
received from the results channel), accumulating the emitted events in
order. -/
def aggRun (m : StateMap) (evs : List Event) : List (Nat × CheckResult) → StateMap × List Event
  | [] => (m, evs)
  | nr :: rest =>
      let step := aggStep m nr.1 nr.2
      aggRun step.1 (evs ++ step.2.toList) rest

/-- `time.Millisecond` in nanoseconds. -/
def msNs : Int := 1000000

/-- Embeds `jitteredInterval` (jittered scheduler variant): base interval
plus a uniform jitter in `±20%`, floored at one millisecond.  `r` is the
value drawn by `rand.Int63n(int64(maxJitter)*2+1)`, so `0 ≤ r ≤
2*maxJitter`; the Go `time.Duration(float64(interval) * 0.2)` is
modelled as the exact product truncated to an integer. -/
def jitteredInterval (interval : Int) (r : Int) : Int :=
  if interval ≤ 0 then msNs
  else
    let maxJitter := 2 * interval / 10
    let jitter := r - maxJitter
    let delay := interval + jitter
    if delay < msNs then msNs else delay

/-- Embeds `enqueueJob` (jittered scheduler variant): a `select` with a
send on the jobs channel, a `default` branch that drops the job and logs
a warning, and a `ctx.Done()` branch that returns silently.  The channel
is a list bounded by `cap`; `pick` resolves Go's random choice when both
the send and the done case are ready.  Returns the channel contents
after the call and whether the warning was logged. -/
def enqueueJob (cap : Nat) (ctxDone pick : Bool) (q : List CheckJob) (job : CheckJob) :
    List CheckJob × Bool :=
  if q.length < cap then
    if ctxDone && pick then (q, false) else (q ++ [job], false)
  else if ctxDone then (q, false)
  else (q, true)

/-- A row of the `incidents` table (schema with the partial unique index
`uq_incidents_one_active`); `id`/`created_at`/`updated_at` are omitted. -/
structure IncidentRow where
  targetName : String
  probe : String
  startedAt : Nat
  startStatus : String
  startStatusCode : Option Nat
  startError : Option String
  endedAt : Option Nat
  endStatus : Option String
  endStatusCode : Option Nat
  endError : Option String
deriving DecidableEq, Inhabited

/-- SQL `NULLIF(n, 0)`. -/
def nullifNat (n : Nat) : Option Nat :=
  if n = 0 then none else some n

/-- SQL `NULLIF(s, '')`. -/
def nullifStr (s : String) : Option String :=
  if s = "" then none else some s

/-- Embeds `statusFromEvent` (incident collector). -/
def statusFromEvent (ev : Event) : String :=
  if ev.To then "UP" else "DOWN"

/-- Whether a row is the open incident for `(t, p)`: matches the
`target_name = t AND probe = p AND ended_at IS NULL` condition. -/
def isOpenFor (t p : String) (r : IncidentRow) : Bool :=
  r.targetName == t && (r.probe == p && r.endedAt.isNone)

/-- Whether the store has an open incident for `(t, p)` (the
`EXISTS (SELECT 1 FROM incidents WHERE ...)` subquery). -/
def hasOpen (t p : String) (store : List IncidentRow) : Bool :=
  store.any (isOpenFor t p)

/-- Embeds `persistIncident` (incident collector): on a down event,
insert an open incident for `(target, "primary")` unless one is already
open (`INSERT ... SELECT ... WHERE NOT EXISTS`); on an up event, close
every open incident for the key (`UPDATE ... WHERE ended_at IS NULL`). -/
def persistIncident (ev : Event) (store : List IncidentRow) : List IncidentRow :=
  if ev.To = false then
    if hasOpen ev.TargetName "primary" store then store
    else
      store ++ [{ targetName := ev.TargetName, probe := "primary", startedAt := ev.At,
                  startStatus := statusFromEvent ev,
                  startStatusCode := nullifNat ev.StatusCode,
                  startError := nullifStr ev.Reason,
                  endedAt := none, endStatus := none,
                  endStatusCode := none, endError := none }]
  else
    store.map fun r =>
      if isOpenFor ev.TargetName "primary" r then
        { r with endedAt := some ev.At, endStatus := some "UP",
                 endStatusCode := nullifNat ev.StatusCode,
                 endError := nullifStr ev.Reason }
      else r

/-- The `IncidentCollector` loop run over a finite list of received
events, starting from the given store contents. -/
def runIncidents (store : List IncidentRow) (evs : List Event) : List IncidentRow :=
  evs.foldl (fun s e => persistIncident e s) store

/-- Number of open incidents for `(t, p)` in the store. -/
def openCount (t p : String) (store : List IncidentRow) : Nat :=
  store.countP (fun r => isOpenFor t p r)

/-- The per-target view of one aggregator iteration: update the target's
current state (or the lazily created fresh one) with the result. -/
def stepState (c : Option State) (now : Nat) (res : CheckResult) : State :=
  updateState now (c.getD (freshState res)) res

/-- The per-target view of the aggregator loop: fold the target's own
`(now, result)` inputs over its (optional) state. -/
def stateFold (c : Option State) (l : List (Nat × CheckResult)) : Option State :=
  l.foldl (fun c nr => some (stepState c nr.1 nr.2)) c

/-- `TotalChecks` of an optional state (0 when absent). -/
def optChecks : Option State → Nat
  | none => 0
  | some s => s.TotalChecks

/-!  Theorems  -/

/-- The spec's status policy: exact match when `expected_status != 0`,
otherwise any code in `[200, 400)`. -/
def statusMatchesPolicy (t : Target) (code : Nat) : Prop :=
  (t.ExpectedStatus ≠ 0 ∧ code = t.ExpectedStatus)
  ∨ (t.ExpectedStatus = 0 ∧ 200 ≤ code ∧ code < 400)

/-- Full characterization of the `Up` flag `CheckOnce` computes on a
received response. -/
lemma checkOnce_ok_up_iff (atTime : Nat) (lat : Int) (t : Target) (resp : HttpResponse) :
    (CheckOnce atTime lat t (.ok resp)).Up = true ↔
      (statusMatchesPolicy t resp.StatusCode ∧
        (goTrimSpace t.Contains = "" ∨
          (goToUpper t.Method ≠ "HEAD" ∧ resp.ReadErr = none ∧
            goContains (bodyRead t resp.Body) (goTrimSpace t.Contains) = true))) := by
  by_cases h1 : t.ExpectedStatus ≠ 0 ∧ resp.StatusCode ≠ t.ExpectedStatus
  · have hsmp : ¬ statusMatchesPolicy t resp.StatusCode := by
      intro hs
      unfold statusMatchesPolicy at hs
      omega
    simp [CheckOnce, h1, hsmp]
  · by_cases h2 : t.ExpectedStatus = 0 ∧ (resp.StatusCode < 200 ∨ 400 ≤ resp.StatusCode)
    · have hsmp : ¬ statusMatchesPolicy t resp.StatusCode := by
        intro hs
        unfold statusMatchesPolicy at hs
        omega
      simp [CheckOnce, h1, h2, hsmp]
    · have hsmp : statusMatchesPolicy t resp.StatusCode := by
        unfold statusMatchesPolicy
        omega
      by_cases hc : goTrimSpace t.Contains = ""
      · simp [CheckOnce, h1, h2, hc, hsmp]
      · by_cases hm : goToUpper t.Method = "HEAD"
        · simp [CheckOnce, h1, h2, hc, hm, hsmp]
        · cases hre : resp.ReadErr with
          | some rerr => simp [CheckOnce, h1, h2, hc, hm, hre, hsmp]
          | none =>
            by_cases hg : goContains (bodyRead t resp.Body) (goTrimSpace t.Contains) = true
            · simp [CheckOnce, h1, h2, hc, hm, hre, hg, hsmp]
            · simp [CheckOnce, h1, h2, hc, hm, hre, hsmp, hg]

/-- C3: for a target whose configuration is valid (a substring
requirement implies the method is not HEAD, as config validation
enforces), `CheckOnce` reports `Up = true` iff the outcome is a response
(no transport error), the status code matches policy, and either no
substring requirement is configured or the (whitespace-trimmed)
substring occurs in the body read; and a status mismatch yields `Up =
false` with a validation message describing the codes (one of the two
exact message forms the code produces) and an empty transport-error
field. -/
theorem checkOnce_up_classification (atTime : Nat) (lat : Int) (t : Target) (o : HttpOutcome)
    (hvalid : goTrimSpace t.Contains ≠ "" → goToUpper t.Method ≠ "HEAD") :
    ((CheckOnce atTime lat t o).Up = true ↔
      ∃ resp, o = HttpOutcome.ok resp ∧ statusMatchesPolicy t resp.StatusCode ∧
        (goTrimSpace t.Contains = "" ∨
          (resp.ReadErr = none ∧ goContains (bodyRead t resp.Body) (goTrimSpace t.Contains) = true)))
  ∧ (∀ resp, o = HttpOutcome.ok resp → ¬ statusMatchesPolicy t resp.StatusCode →
      (CheckOnce atTime lat t o).Up = false
    ∧ ((CheckOnce atTime lat t o).Validation =
          s!"unexpected status: got {resp.StatusCode} want {t.ExpectedStatus}"
        ∨ (CheckOnce atTime lat t o).Validation = s!"bad status: {resp.StatusCode}")
    ∧ (CheckOnce atTime lat t o).Error = "") := by
  constructor
  · cases o with
    | buildError msg => simp [CheckOnce]
    | transportError e => simp [CheckOnce]
    | ok resp =>
        rw [checkOnce_ok_up_iff]
        constructor
        · rintro ⟨hs, hrest⟩
          refine ⟨resp, rfl, hs, ?_⟩
          rcases hrest with h | ⟨_, h2, h3⟩
          · exact Or.inl h
          · exact Or.inr ⟨h2, h3⟩
        · rintro ⟨resp', heq, hs, hrest⟩
          injection heq with heq
          subst heq
          refine ⟨hs, ?_⟩
          by_cases hc : goTrimSpace t.Contains = ""
          · exact Or.inl hc
          · rcases hrest with h | ⟨h2, h3⟩
            · exact absurd h hc
            · exact Or.inr ⟨hvalid hc, h2, h3⟩
  · rintro resp rfl hns
    have hup : (CheckOnce atTime lat t (.ok resp)).Up = false := by
      rw [Bool.eq_false_iff]
      intro h
      exact hns ((checkOnce_ok_up_iff atTime lat t resp).mp h).1
    refine ⟨hup, ?_, ?_⟩
    · by_cases h1 : t.ExpectedStatus ≠ 0 ∧ resp.StatusCode ≠ t.ExpectedStatus
      · left
        simp [CheckOnce, h1]
      · have h2 : t.ExpectedStatus = 0 ∧ (resp.StatusCode < 200 ∨ 400 ≤ resp.StatusCode) := by
          unfold statusMatchesPolicy at hns
          omega
        right
        simp [CheckOnce, h1, h2]
    · by_cases h1 : t.ExpectedStatus ≠ 0 ∧ resp.StatusCode ≠ t.ExpectedStatus
      · simp [CheckOnce, h1]
      · have h2 : t.ExpectedStatus = 0 ∧ (resp.StatusCode < 200 ∨ 400 ≤ resp.StatusCode) := by
          unfold statusMatchesPolicy at hns
          omega
        simp [CheckOnce, h1, h2]

/-- Witness for `checkOnce_up_classification`: a GET target expecting
200 with substring requirement "OK", applied to a matching response, a
404 response, and a transport error. -/
theorem checkOnce_up_classification_witness :
    ((CheckOnce 0 1 ⟨"a", "u", "GET", 1, 1, 200, "OK", 0, true, []⟩
        (.ok ⟨200, "all OK here", none⟩)).Up = true ↔
      ∃ resp, HttpOutcome.ok ⟨200, "all OK here", none⟩ = HttpOutcome.ok resp ∧
        statusMatchesPolicy ⟨"a", "u", "GET", 1, 1, 200, "OK", 0, true, []⟩ resp.StatusCode ∧
        (goTrimSpace (Target.Contains ⟨"a", "u", "GET", 1, 1, 200, "OK", 0, true, []⟩) = "" ∨
          (resp.ReadErr = none ∧
            goContains (bodyRead ⟨"a", "u", "GET", 1, 1, 200, "OK", 0, true, []⟩ resp.Body)
              (goTrimSpace (Target.Contains ⟨"a", "u", "GET", 1, 1, 200, "OK", 0, true, []⟩)) = true)))
  ∧ ((CheckOnce 0 1 ⟨"a", "u", "GET", 1, 1, 200, "OK", 0, true, []⟩
        (.ok ⟨404, "all OK here", none⟩)).Up = false
    ∧ ((CheckOnce 0 1 ⟨"a", "u", "GET", 1, 1, 200, "OK", 0, true, []⟩
          (.ok ⟨404, "all OK here", none⟩)).Validation = s!"unexpected status: got {404} want {200}"
        ∨ (CheckOnce 0 1 ⟨"a", "u", "GET", 1, 1, 200, "OK", 0, true, []⟩
            (.ok ⟨404, "all OK here", none⟩)).Validation = s!"bad status: {404}")
    ∧ (CheckOnce 0 1 ⟨"a", "u", "GET", 1, 1, 200, "OK", 0, true, []⟩
        (.ok ⟨404, "all OK here", none⟩)).Error = "") :=
  ⟨(checkOnce_up_classification 0 1 _ _ (by decide)).1,
   (checkOnce_up_classification 0 1 _ _ (by decide)).2 ⟨404, "all OK here", none⟩ rfl
     (by unfold statusMatchesPolicy; decide)⟩

/-- C2: the claim says that after a failed check the success streak is
reset, so `LastUp = false` implies `ConsecutiveSuccess = 0`.  The code
violates this: `updateState` never resets `ConsecutiveSuccess` on the
failure branch.  Evaluating the code on the failing input — a first
result that is up followed by a second that is down — leaves
`ConsecutiveSuccess = 1` and `ConsecutiveFail = 1` with `LastUp =
false`, so both streak counters are nonzero after the first check. -/
theorem updateState_down_keeps_success_streak :
    (updateState 1 (updateState 0 State0 ⟨"a", "u", 0, 1, true, 200, "", "", 1⟩)
        ⟨"a", "u", 1, 1, false, 0, "timeout", "", 1⟩).LastUp = false
  ∧ (updateState 1 (updateState 0 State0 ⟨"a", "u", 0, 1, true, 200, "", "", 1⟩)
        ⟨"a", "u", 1, 1, false, 0, "timeout", "", 1⟩).ConsecutiveSuccess = 1
  ∧ (updateState 1 (updateState 0 State0 ⟨"a", "u", 0, 1, true, 200, "", "", 1⟩)
        ⟨"a", "u", 1, 1, false, 0, "timeout", "", 1⟩).ConsecutiveFail = 1
  ∧ (updateState 1 (updateState 0 State0 ⟨"a", "u", 0, 1, true, 200, "", "", 1⟩)
        ⟨"a", "u", 1, 1, false, 0, "timeout", "", 1⟩).TotalChecks = 2 := by
  decide

/-- C6 counterexample: at interval `I = 1` ns with jitter draw `0` (a
legal draw, since `maxJitter = 0`), the computed delay is the 1 ms
floor, `1000000` ns, which lies outside the claimed range
`[max(1ms, 0.8·I), 1.2·I]` because it exceeds the upper bound `1.2·I`. -/
theorem jitteredInterval_range_counterexample :
    (0 : Int) ≤ 0 ∧ (0 : Int) ≤ 2 * (2 * 1 / 10)
  ∧ jitteredInterval 1 0 = 1000000
  ∧ ¬ (10 * jitteredInterval 1 0 ≤ 12 * 1) := by
  decide

/-- C6 (amended): for `I ≤ 0` the delay is exactly 1 ms; for `I > 0` and
any legal jitter draw `0 ≤ r ≤ 2·⌊0.2·I⌋`, the delay is at least 1 ms,
at least `0.8·I`, and at most `max(1ms, 1.2·I)` (the inequalities are
stated multiplied through by 10 to stay in integers). -/
theorem jitteredInterval_bounds (interval r : Int)
    (hr0 : 0 ≤ r) (hr2 : r ≤ 2 * (2 * interval / 10)) :
    (interval ≤ 0 → jitteredInterval interval r = msNs)
  ∧ (0 < interval →
      msNs ≤ jitteredInterval interval r
    ∧ 8 * interval ≤ 10 * jitteredInterval interval r
    ∧ 10 * jitteredInterval interval r ≤ max (10 * msNs) (12 * interval)) := by
  constructor
  · intro hle
    simp [jitteredInterval, hle]
  · intro hpos
    have hne : ¬ interval ≤ 0 := by omega
    simp only [jitteredInterval, msNs, if_neg hne]
    refine ⟨?_, ?_, ?_⟩
    · split_ifs <;> omega
    · split_ifs <;> omega
    · rcases le_total (10 * (1000000 : Int)) (12 * interval) with hm | hm
      · rw [max_eq_right hm]
        split_ifs <;> omega
      · rw [max_eq_left hm]
        split_ifs <;> omega

/-- Witness for `jitteredInterval_bounds` at `I` = 1 s, `r = 0`. -/
theorem jitteredInterval_bounds_witness :
    msNs ≤ jitteredInterval 1000000000 0
  ∧ 8 * 1000000000 ≤ 10 * jitteredInterval 1000000000 0
  ∧ 10 * jitteredInterval 1000000000 0 ≤ max (10 * msNs) (12 * 1000000000) :=
  (jitteredInterval_bounds 1000000000 0 (by decide) (by decide)).2 (by decide)

/-- C7: when the job queue is at capacity, `enqueueJob` leaves the queue
unchanged and drops the job; outside shutdown it logs the warning, on a
fired cancellation it returns silently; and for any queue within
capacity the queue never grows beyond capacity. -/
theorem enqueueJob_full_drops (cap : Nat) (d p : Bool) (q : List CheckJob) (job : CheckJob) :
    (q.length = cap → d = false → enqueueJob cap d p q job = (q, true))
  ∧ (q.length = cap → d = true → enqueueJob cap d p q job = (q, false))
  ∧ (q.length ≤ cap → (enqueueJob cap d p q job).1.length ≤ cap) := by
  refine ⟨?_, ?_, ?_⟩
  · intro hfull hd
    simp [enqueueJob, hfull, hd]
  · intro hfull hd
    simp [enqueueJob, hfull, hd]
  · intro hle
    simp only [enqueueJob]
    split_ifs with h1 h2 h3
    · exact hle
    · simpa using h1
    · exact hle
    · exact hle

/-- Witness for `enqueueJob_full_drops` at capacity 1 with a full queue. -/
theorem enqueueJob_full_drops_witness :
    enqueueJob 1 false false [⟨⟨"a", "u", "GET", 1, 1, 200, "", 0, true, []⟩, 0, 1⟩]
        ⟨⟨"a", "u", "GET", 1, 1, 200, "", 0, true, []⟩, 5, 1⟩
      = ([⟨⟨"a", "u", "GET", 1, 1, 200, "", 0, true, []⟩, 0, 1⟩], true)
  ∧ (enqueueJob 1 false false [⟨⟨"a", "u", "GET", 1, 1, 200, "", 0, true, []⟩, 0, 1⟩]
        ⟨⟨"a", "u", "GET", 1, 1, 200, "", 0, true, []⟩, 5, 1⟩).1.length ≤ 1 :=
  ⟨(enqueueJob_full_drops 1 false false _ _).1 rfl rfl,
   (enqueueJob_full_drops 1 false false _ _).2.2 (by decide)⟩

/-- C8: a transport failure always yields `Up = false`, and the recorded
`Error` is exactly `"timeout"` when the error is a context-deadline
error, exactly `"canceled"` when it is a cancellation (and not a
deadline), and the raw error text for every other transport error. -/
theorem checkOnce_error_classification (atTime : Nat) (lat : Int) (t : Target) (e : GoError) :
    (CheckOnce atTime lat t (.transportError e)).Up = false
  ∧ (errorsIsContextDeadline e = true →
      (CheckOnce atTime lat t (.transportError e)).Error = "timeout")
  ∧ (errorsIsContextDeadline e = false → errorsIsContextCanceled e = true →
      (CheckOnce atTime lat t (.transportError e)).Error = "canceled")
  ∧ (errorsIsContextDeadline e = false → errorsIsContextCanceled e = false →
      (CheckOnce atTime lat t (.transportError e)).Error = e.msg) := by
  refine ⟨rfl, ?_, ?_, ?_⟩
  · intro h1
    simp [CheckOnce, classifyHTTPError, h1]
  · intro h1 h2
    simp [CheckOnce, classifyHTTPError, h1, h2]
  · intro h1 h2
    simp [CheckOnce, classifyHTTPError, h1, h2]

/-- Witness for `checkOnce_error_classification` on a deadline error, a
cancellation, and a DNS-style generic error. -/
theorem checkOnce_error_classification_witness :
    (CheckOnce 0 1 ⟨"a", "u", "GET", 1, 1, 200, "", 0, true, []⟩
      (.transportError ⟨true, false, "context deadline exceeded"⟩)).Error = "timeout"
  ∧ (CheckOnce 0 1 ⟨"a", "u", "GET", 1, 1, 200, "", 0, true, []⟩
      (.transportError ⟨false, true, "context canceled"⟩)).Error = "canceled"
  ∧ (CheckOnce 0 1 ⟨"a", "u", "GET", 1, 1, 200, "", 0, true, []⟩
      (.transportError ⟨false, false, "no such host"⟩)).Error = "no such host" :=
  ⟨(checkOnce_error_classification 0 1 _ _).2.1 (by decide),
   (checkOnce_error_classification 0 1 _ _).2.2.1 (by decide) (by decide),
   (checkOnce_error_classification 0 1 _ _).2.2.2 (by decide) (by decide)⟩

/-- C9: for a GET target configured with `contains = "OK"` whose
response passes the status check, is read without error, and whose body
read (up to the byte limit) does not contain "OK", `CheckOnce` reports
`Up = false`, `Validation = "keyword missing: \x22OK\x22"` and
`Error = ""` — only the validation field is set. -/
theorem checkOnce_keyword_missing (atTime : Nat) (lat : Int) (t : Target) (resp : HttpResponse)
    (hm : t.Method = "GET") (hc : t.Contains = "OK")
    (hs : statusMatchesPolicy t resp.StatusCode)
    (hre : resp.ReadErr = none)
    (hg : goContains (bodyRead t resp.Body) "OK" = false) :
    (CheckOnce atTime lat t (.ok resp)).Up = false
  ∧ (CheckOnce atTime lat t (.ok resp)).Validation = "keyword missing: \"OK\""
  ∧ (CheckOnce atTime lat t (.ok resp)).Error = "" := by
  have h1 : ¬ (t.ExpectedStatus ≠ 0 ∧ resp.StatusCode ≠ t.ExpectedStatus) := by
    unfold statusMatchesPolicy at hs
    omega
  have h2 : ¬ (t.ExpectedStatus = 0 ∧ (resp.StatusCode < 200 ∨ 400 ≤ resp.StatusCode)) := by
    unfold statusMatchesPolicy at hs
    omega
  have htrim : goTrimSpace t.Contains = "OK" := by
    rw [hc]
    decide
  have hupper : goToUpper t.Method = "GET" := by
    rw [hm]
    decide
  have hq : "keyword missing: " ++ goQuote "OK" = "keyword missing: \"OK\"" := by
    decide
  simp [CheckOnce, h1, h2, htrim, hupper, hre, hg, hq]

/-- Witness for `checkOnce_keyword_missing` on a 200 response whose body
lacks the keyword. -/
theorem checkOnce_keyword_missing_witness :
    (CheckOnce 0 1 ⟨"a", "u", "GET", 1, 1, 200, "OK", 0, true, []⟩
        (.ok ⟨200, "nothing here", none⟩)).Up = false
  ∧ (CheckOnce 0 1 ⟨"a", "u", "GET", 1, 1, 200, "OK", 0, true, []⟩
        (.ok ⟨200, "nothing here", none⟩)).Validation = "keyword missing: \"OK\""
  ∧ (CheckOnce 0 1 ⟨"a", "u", "GET", 1, 1, 200, "OK", 0, true, []⟩
        (.ok ⟨200, "nothing here", none⟩)).Error = "" :=
  checkOnce_keyword_missing 0 1 _ _ rfl rfl (Or.inl ⟨by decide, rfl⟩) rfl (by decide)

/-- C10: for a target with `MaxBodyBytes ≤ 0`, `CheckOnce` applies the
default limit of 65536 bytes: the effective limit is 65536, and the
check's outcome depends only on the first 65536 bytes of the body. -/
theorem checkOnce_default_body_limit (atTime : Nat) (lat : Int) (t : Target) (resp : HttpResponse)
    (hmb : t.MaxBodyBytes ≤ 0) :
    effMaxBytes t = 65536
  ∧ CheckOnce atTime lat t (.ok resp)
      = CheckOnce atTime lat t
          (.ok ⟨resp.StatusCode, (resp.Body.data.take 65536).asString, resp.ReadErr⟩) := by
  have he : effMaxBytes t = 65536 := by
    unfold effMaxBytes
    rw [if_pos hmb]
    norm_num
  refine ⟨he, ?_⟩
  have hdata : ∀ l : List Char, (List.asString l).data = l := fun l => rfl
  have hb : bodyRead t ((resp.Body.data.take 65536).asString) = bodyRead t resp.Body := by
    unfold bodyRead
    rw [he]
    simp [hdata, List.take_take]
  simp [CheckOnce, hb]

/-- Witness for `checkOnce_default_body_limit` on a target with
`MaxBodyBytes = 0`. -/
theorem checkOnce_default_body_limit_witness :
    effMaxBytes ⟨"a", "u", "GET", 1, 1, 200, "OK", 0, true, []⟩ = 65536
  ∧ CheckOnce 0 1 ⟨"a", "u", "GET", 1, 1, 200, "OK", 0, true, []⟩ (.ok ⟨200, "body OK", none⟩)
      = CheckOnce 0 1 ⟨"a", "u", "GET", 1, 1, 200, "OK", 0, true, []⟩
          (.ok ⟨200, (("body OK" : String).data.take 65536).asString, none⟩) :=
  checkOnce_default_body_limit 0 1 ⟨"a", "u", "GET", 1, 1, 200, "OK", 0, true, []⟩
    ⟨200, "body OK", none⟩ (by decide)

lemma updateState_TotalChecks (now : Nat) (s : State) (res : CheckResult) :
    (updateState now s res).TotalChecks = s.TotalChecks + 1 := by
  unfold updateState
  dsimp only
  split_ifs <;> rfl

lemma updateState_LastUp (now : Nat) (s : State) (res : CheckResult) :
    (updateState now s res).LastUp = res.Up := by
  unfold updateState
  dsimp only
  split_ifs <;> rfl

lemma stepState_TotalChecks (c : Option State) (now : Nat) (res : CheckResult) :
    (stepState c now res).TotalChecks = optChecks c + 1 := by
  cases c <;> simp [stepState, optChecks, updateState_TotalChecks, freshState, State0]

lemma stateFold_cons (c : Option State) (x : Nat × CheckResult) (l : List (Nat × CheckResult)) :
    stateFold c (x :: l) = stateFold (some (stepState c x.1 x.2)) l :=
  rfl

lemma stateFold_concat (c : Option State) (l : List (Nat × CheckResult))
    (x : Nat × CheckResult) :
    stateFold c (l ++ [x]) = some (stepState (stateFold c l) x.1 x.2) := by
  unfold stateFold
  rw [List.foldl_append]
  rfl

lemma optChecks_stateFold (l : List (Nat × CheckResult)) :
    ∀ c, optChecks (stateFold c l) = optChecks c + l.length := by
  induction l with
  | nil => intro c; rfl
  | cons x l ih =>
      intro c
      rw [stateFold_cons, ih]
      have h : optChecks (some (stepState c x.1 x.2)) = optChecks c + 1 :=
        stepState_TotalChecks c x.1 x.2
      rw [h]
      simp
      omega

/-- The state the aggregator holds for target `t` after processing the
inputs is exactly the per-target fold over the inputs whose result is
for `t`. -/
lemma lookup_aggRun (l : List (Nat × CheckResult)) :
    ∀ (m : StateMap) (evs : List Event) (t : String),
      List.lookup t (aggRun m evs l).1
        = stateFold (List.lookup t m) (l.filter (fun nr => nr.2.TargetName == t)) := by
  induction l with
  | nil => intro m evs t; rfl
  | cons nr rest ih =>
      intro m evs t
      rw [aggRun]
      rw [ih]
      by_cases h : nr.2.TargetName = t
      · subst h
        simp only [List.filter_cons, beq_self_eq_true, if_pos]
        rw [stateFold_cons]
        congr 1
        simp [aggStep, List.lookup, stepState]
      · have hb : (nr.2.TargetName == t) = false := beq_false_of_ne h
        have hb2 : (t == nr.2.TargetName) = false := beq_false_of_ne (Ne.symm h)
        simp only [List.filter_cons, hb, Bool.false_eq_true, if_neg, ite_false]
        congr 1
        simp [aggStep, List.lookup, hb2]

lemma aggStep_snd_isSome (m : StateMap) (now : Nat) (res : CheckResult) :
    (aggStep m now res).2.isSome = true ↔
      (1 < (updateState now ((List.lookup res.TargetName m).getD (freshState res)) res).TotalChecks
        ∧ ((List.lookup res.TargetName m).getD (freshState res)).LastUp ≠ res.Up) := by
  unfold aggStep
  dsimp only
  split_ifs with h
  · simpa using h
  · simpa using h

/-- C1: the aggregator step on a result `r` (after any prefix of inputs,
starting from the empty state map) emits an event iff the target already
has a prior processed result — equivalently `TotalChecks > 1` after the
update — and that last prior result's up-value differs from `r`'s; in
particular the first result ever processed for a target never emits,
whatever its up-value. -/
theorem aggregator_event_iff (pre : List (Nat × CheckResult)) (now : Nat) (r : CheckResult) :
    ((aggStep (aggRun [] [] pre).1 now r).2.isSome = true ↔
      ∃ x, (pre.filter (fun nr => nr.2.TargetName == r.TargetName)).getLast? = some x
        ∧ x.2.Up ≠ r.Up)
  ∧ ((pre.filter (fun nr => nr.2.TargetName == r.TargetName)) = [] →
      (aggStep (aggRun [] [] pre).1 now r).2 = none) := by
  have hlk : List.lookup r.TargetName (aggRun [] [] pre).1
      = stateFold none (pre.filter (fun nr => nr.2.TargetName == r.TargetName)) := by
    rw [lookup_aggRun]
    rfl
  rcases List.eq_nil_or_concat' (pre.filter (fun nr => nr.2.TargetName == r.TargetName))
    with hnil | ⟨l, x, hconcat⟩
  · rw [hnil] at hlk
    have hfresh : (List.lookup r.TargetName (aggRun [] [] pre).1).getD (freshState r)
        = freshState r := by
      rw [hlk]
      rfl
    constructor
    · rw [aggStep_snd_isSome, hfresh, hnil]
      have hch : (updateState now (freshState r) r).TotalChecks = 1 := by
        rw [updateState_TotalChecks]
        rfl
      simp [hch]
    · intro _
      have : ¬ (1 < (updateState now (freshState r) r).TotalChecks ∧
          (freshState r).LastUp ≠ r.Up) := by
        rw [updateState_TotalChecks]
        simp [freshState, State0]
      have hiff := aggStep_snd_isSome (aggRun [] [] pre).1 now r
      rw [hfresh] at hiff
      rcases hagg : (aggStep (aggRun [] [] pre).1 now r).2 with _ | ev
      · rfl
      · exfalso
        apply this
        apply hiff.mp
        rw [hagg]
        rfl
  · rw [hconcat] at hlk
    rw [stateFold_concat] at hlk
    have hst : (List.lookup r.TargetName (aggRun [] [] pre).1).getD (freshState r)
        = stepState (stateFold none l) x.1 x.2 := by
      rw [hlk]
      rfl
    have hch : (updateState now (stepState (stateFold none l) x.1 x.2) r).TotalChecks
        = l.length + 2 := by
      rw [updateState_TotalChecks, stepState_TotalChecks, optChecks_stateFold]
      simp only [optChecks]
      omega
    have hlu : (stepState (stateFold none l) x.1 x.2).LastUp = x.2.Up := by
      unfold stepState
      rw [updateState_LastUp]
    constructor
    · rw [aggStep_snd_isSome, hst, hch, hlu, hconcat]
      rw [List.getLast?_concat]
      constructor
      · rintro ⟨_, hne⟩
        exact ⟨x, rfl, hne⟩
      · rintro ⟨x', hx', hne⟩
        injection hx' with hx'
        subst hx'
        exact ⟨by omega, hne⟩
    · intro habs
      rw [hconcat] at habs
      exact absurd habs (by simp)

/-- Witness for `aggregator_event_iff`: after one up result for target
"a", a down result for "a" emits an event; the very first (down) result
for target "b" does not. -/
theorem aggregator_event_iff_witness :
    (aggStep (aggRun [] [] [(0, ⟨"a", "u", 0, 1, true, 200, "", "", 1⟩)]).1 1
        ⟨"a", "u", 1, 1, false, 0, "timeout", "", 1⟩).2.isSome = true
  ∧ (aggStep (aggRun [] [] []).1 0 ⟨"b", "u", 0, 1, false, 0, "timeout", "", 1⟩).2 = none :=
  ⟨(aggregator_event_iff [(0, ⟨"a", "u", 0, 1, true, 200, "", "", 1⟩)] 1
      ⟨"a", "u", 1, 1, false, 0, "timeout", "", 1⟩).1.mpr
      ⟨(0, ⟨"a", "u", 0, 1, true, 200, "", "", 1⟩), by decide, by decide⟩,
   (aggregator_event_iff [] 0 ⟨"b", "u", 0, 1, false, 0, "timeout", "", 1⟩).2 rfl⟩

lemma openCount_eq_zero (t p : String) (store : List IncidentRow)
    (h : hasOpen t p store = false) : openCount t p store = 0 := by
  unfold hasOpen at h
  unfold openCount
  rw [List.countP_eq_zero]
  intro a ha
  exact (List.any_eq_false.mp h) a ha

lemma countP_le_of_map (f : IncidentRow → IncidentRow) (q : IncidentRow → Bool)
    (hf : ∀ r, q (f r) = true → f r = r) :
    ∀ l : List IncidentRow, (l.map f).countP q ≤ l.countP q := by
  intro l
  induction l with
  | nil => simp
  | cons a l ih =>
      simp only [List.map_cons, List.countP_cons]
      by_cases h : q (f a) = true
      · rw [hf a h]
        exact Nat.add_le_add_right ih _
      · rw [if_neg h]
        exact Nat.le_trans (Nat.add_le_add_right ih 0) (Nat.add_le_add_left (Nat.zero_le _) _)

lemma persistIncident_openCount_le (ev : Event) (store : List IncidentRow)
    (h : ∀ t p, openCount t p store ≤ 1) :
    ∀ t p, openCount t p (persistIncident ev store) ≤ 1 := by
  intro t p
  unfold persistIncident
  split_ifs with hto hopen
  · exact h t p
  · unfold openCount
    rw [List.countP_append]
    simp only [List.countP_cons, List.countP_nil]
    by_cases hnew : isOpenFor t p
        { targetName := ev.TargetName, probe := "primary", startedAt := ev.At,
          startStatus := statusFromEvent ev,
          startStatusCode := nullifNat ev.StatusCode,
          startError := nullifStr ev.Reason,
          endedAt := none, endStatus := none,
          endStatusCode := none, endError := none } = true
    · have hkey : ev.TargetName = t ∧ "primary" = p := by
        simp only [isOpenFor] at hnew
        have h1 := (Bool.and_eq_true _ _).mp hnew
        have h2 := (Bool.and_eq_true _ _).mp h1.2
        exact ⟨by simpa using h1.1, by simpa using h2.1⟩
      have hz : openCount t p store = 0 := by
        rw [← hkey.1, ← hkey.2]
        exact openCount_eq_zero _ _ _ (by simpa using hopen)
      unfold openCount at hz
      rw [hz, hnew]
      simp
    · rw [if_neg hnew]
      have hb := h t p
      unfold openCount at hb
      omega
  · have hc := countP_le_of_map
      (fun r =>
        if isOpenFor ev.TargetName "primary" r then
          { r with endedAt := some ev.At, endStatus := some "UP",
                   endStatusCode := nullifNat ev.StatusCode,
                   endError := nullifStr ev.Reason }
        else r)
      (fun r => isOpenFor t p r)
      (by
        intro r hq
        dsimp only at hq ⊢
        by_cases hsel : isOpenFor ev.TargetName "primary" r = true
        · rw [if_pos hsel] at hq
          simp [isOpenFor] at hq
        · rw [if_neg hsel] at hq ⊢)
      store
    exact Nat.le_trans hc (h t p)

lemma runIncidents_openCount_le (evs : List Event) :
    ∀ store, (∀ t p, openCount t p store ≤ 1) →
      ∀ t p, openCount t p (runIncidents store evs) ≤ 1 := by
  induction evs with
  | nil => intro store h; exact h
  | cons e evs ih =>
      intro store h
      exact ih (persistIncident e store) (persistIncident_openCount_le e store h)

/-- C4: running the incident tracker from an empty store over any event
sequence leaves at most one open incident per `(target, probe)`; a down
event while an incident is already open for the key leaves the store
unchanged, and an up event with no open incident for the key leaves the
store unchanged. -/
theorem incidents_at_most_one_open (evs : List Event) (ev : Event) :
    (∀ t p, openCount t p (runIncidents [] evs) ≤ 1)
  ∧ (ev.To = false → hasOpen ev.TargetName "primary" (runIncidents [] evs) = true →
      persistIncident ev (runIncidents [] evs) = runIncidents [] evs)
  ∧ (ev.To = true → hasOpen ev.TargetName "primary" (runIncidents [] evs) = false →
      persistIncident ev (runIncidents [] evs) = runIncidents [] evs) := by
  refine ⟨?_, ?_, ?_⟩
  · exact runIncidents_openCount_le evs [] (fun t p => by simp [openCount])
  · intro hto hopen
    unfold persistIncident
    rw [if_pos hto, if_pos hopen]
  · intro hto hopen
    unfold persistIncident
    rw [if_neg (by simp [hto])]
    rw [List.map_congr_left (g := id), List.map_id]
    intro r hr
    have hno : isOpenFor ev.TargetName "primary" r = false := by
      have := List.any_eq_false.mp hopen
      exact Bool.eq_false_iff.mpr (this r hr)
    rw [if_neg (by simp [hno])]
    rfl

/-- Witness for `incidents_at_most_one_open`: after one down event for
target "a", a second down event is a store no-op; on the empty store an
up event is a no-op; and the open count for "a" is at most one. -/
theorem incidents_at_most_one_open_witness :
    persistIncident ⟨"a", "u", true, false, 5, "err", 500⟩
        (runIncidents [] [⟨"a", "u", true, false, 1, "timeout", 0⟩])
      = runIncidents [] [⟨"a", "u", true, false, 1, "timeout", 0⟩]
  ∧ persistIncident ⟨"a", "u", false, true, 5, "", 200⟩ (runIncidents [] [])
      = runIncidents [] []
  ∧ openCount "a" "primary" (runIncidents [] [⟨"a", "u", true, false, 1, "timeout", 0⟩]) ≤ 1 :=
  ⟨(incidents_at_most_one_open [⟨"a", "u", true, false, 1, "timeout", 0⟩]
      ⟨"a", "u", true, false, 5, "err", 500⟩).2.1 rfl (by decide),
   (incidents_at_most_one_open [] ⟨"a", "u", false, true, 5, "", 200⟩).2.2 rfl (by decide),
   (incidents_at_most_one_open [⟨"a", "u", true, false, 1, "timeout", 0⟩]
      ⟨"a", "u", false, true, 9, "", 200⟩).1 "a" "primary"⟩

/-- C5 counterexample: in the timeout scenario — a first successful
check then a second that hits the context deadline — the incident the
tracker opens has `start_status = "DOWN"`, not `"TIMEOUT"`:
`statusFromEvent` maps every down transition to `"DOWN"`. -/
theorem scenario_timeout_start_status_counterexample :
    ((runIncidents []
        (aggRun [] []
          [(0, CheckOnce 0 5 ⟨"Alpha", "https://a", "GET", 30000000000, 5000000000,
                200, "", 0, true, []⟩ (.ok ⟨200, "", none⟩)),
           (30, CheckOnce 30 7 ⟨"Alpha", "https://a", "GET", 30000000000, 5000000000,
                200, "", 0, true, []⟩
              (.transportError ⟨true, false, "context deadline exceeded"⟩))]).2).map
        IncidentRow.startStatus) = ["DOWN"]
  ∧ ("DOWN" : String) ≠ "TIMEOUT" := by
  decide

/-- C5 (amended): in the timeout scenario the aggregator emits exactly
one event `{from: true, to: false, reason: "timeout", statusCode: 0}`,
and the incident tracker opens exactly one incident for
`("Alpha", "primary")` with `start_status = "DOWN"` (the code maps every
down transition to `"DOWN"`; `"TIMEOUT"` appears only in check-result
persistence and notification text), `start_status_code` NULL and
`start_error = "timeout"`. -/
theorem scenario_timeout_event_and_incident :
    (aggRun [] []
        [(0, CheckOnce 0 5 ⟨"Alpha", "https://a", "GET", 30000000000, 5000000000,
              200, "", 0, true, []⟩ (.ok ⟨200, "", none⟩)),
         (30, CheckOnce 30 7 ⟨"Alpha", "https://a", "GET", 30000000000, 5000000000,
              200, "", 0, true, []⟩
            (.transportError ⟨true, false, "context deadline exceeded"⟩))]).2
      = [⟨"Alpha", "https://a", true, false, 30, "timeout", 0⟩]
  ∧ runIncidents []
        (aggRun [] []
          [(0, CheckOnce 0 5 ⟨"Alpha", "https://a", "GET", 30000000000, 5000000000,
                200, "", 0, true, []⟩ (.ok ⟨200, "", none⟩)),
           (30, CheckOnce 30 7 ⟨"Alpha", "https://a", "GET", 30000000000, 5000000000,
                200, "", 0, true, []⟩
              (.transportError ⟨true, false, "context deadline exceeded"⟩))]).2
      = [⟨"Alpha", "primary", 30, "DOWN", none, some "timeout", none, none, none, none⟩] := by
  decide

end PingCy
